import Mathlib

/-!
Verification of the distributed seat-reservation repository (Go).

Shallow embedding of the core components:
* `03-lock-distribuido/server/lamport_clock.go` — the Lamport clock;
* `03-lock-distribuido/server/ricart_agrawala.go` — the Ricart–Agrawala node;
* `02-lock-centralizado/coordinator/main.go` — the centralized lock coordinator;
* the reservation server (`ReservarAsiento` / `LiberarAsiento`) and the
  Ricart–Agrawala `main` peer-filtering loop.

Conventions: Go `int64` and `time.Time` instants are embedded as `Int`
(only ordering and arithmetic on them matter here); `map[string]X` is an
association list; `map[string]bool` used as a set is a `List String` with
membership semantics; side effects (messages sent over HTTP, the grant
channel, the durable-store write outcome) are made explicit as outputs
respectively boolean inputs.
-/

namespace Distribuidos

/-- Embeds `LamportClock` from `lamport_clock.go` (field `time int64`). -/
structure LamportClock where
  time : Int
deriving DecidableEq, Repr

/-- Embeds `NewLamportClock`: starts at 0. -/
def NewLamportClock : LamportClock := { time := 0 }

/-- Embeds `LamportClock.Increment`: `c.time++; return c.time`.
Returns the new clock together with the returned value. -/
def LamportClock.Increment (c : LamportClock) : LamportClock × Int :=
  let t := c.time + 1
  ({ time := t }, t)

/-- Embeds `LamportClock.GetTime`: returns the current value, unchanged. -/
def LamportClock.GetTime (c : LamportClock) : Int :=
  c.time

/-- Embeds `LamportClock.Witness`:
`if receivedTime > c.time { c.time = receivedTime }; c.time++; return c.time`. -/
def LamportClock.Witness (c : LamportClock) (receivedTime : Int) : LamportClock × Int :=
  let t0 := if receivedTime > c.time then receivedTime else c.time
  let t := t0 + 1
  ({ time := t }, t)

/-- One call made by a caller of the clock: `Increment`, `GetTime` or
`Witness(receivedTime)` (the three exported operations of `lamport_clock.go`). -/
inductive ClockOp
  | increment
  | getTime
  | witness (receivedTime : Int)
deriving DecidableEq, Repr

/-- Runs one clock operation, giving the successor clock and the value
returned to the caller. -/
def runClockOp (c : LamportClock) : ClockOp → LamportClock × Int
  | ClockOp.increment => c.Increment
  | ClockOp.getTime => (c, c.GetTime)
  | ClockOp.witness r => c.Witness r

/-- The sequence of values a single caller gets back from a sequence of
clock operations run in order. -/
def runClock (c : LamportClock) : List ClockOp → List Int
  | [] => []
  | op :: ops =>
    let r := runClockOp c op
    r.2 :: runClock r.1 ops

/-- Embeds `NodeState` from `ricart_agrawala.go`. -/
inductive NodeState
  | Released
  | Wanted
  | Held
deriving DecidableEq, Repr

/-- Embeds `Message` (`type` is `"REQUEST"` or `"REPLY"`). -/
structure Message where
  type : String
  timestamp : Int
  nodeID : String
deriving DecidableEq, Repr

/-- Embeds the mutable part of `Node` from `ricart_agrawala.go`.
`RepliesNeeded` (a `map[string]bool` used as a set) is a list with
membership semantics; the mutex and the `csGranted` channel are not state,
the raised grant signal is reported in `StepResult`. -/
structure Node where
  ID : String
  Peers : List String
  Clock : LamportClock
  State : NodeState
  RequestTime : Int
  RepliesNeeded : List String
  DeferredReplies : List String
deriving DecidableEq, Repr

/-- Result of one handler run: the successor node, the REPLY messages it
sent (recipient paired with the message), and whether the `csGranted`
signal was raised. -/
structure StepResult where
  node : Node
  sent : List (String × Message)
  granted : Bool
deriving DecidableEq, Repr

/-- Embeds `NewNode`: stores the given peer list as-is (the source comment
says self-filtering is left to the caller in `main.go`). -/
def NewNode (id : String) (peers : List String) : Node :=
  { ID := id
    Peers := peers
    Clock := NewLamportClock
    State := NodeState.Released
    RequestTime := 0
    RepliesNeeded := []
    DeferredReplies := [] }

/-- Embeds the peer-filtering loop in `main` of the Ricart–Agrawala server
(`for _, peer := range rawPeers { if peer != serverID { ... append } }`;
the inner `switch` maps each known name to itself). -/
def mainFilterPeers (serverID : String) (rawPeers : List String) : List String :=
  rawPeers.filter (fun peer => decide (peer ≠ serverID))

/-- Embeds `Node.sendReply`: builds a REPLY stamped with
`Clock.Increment()` and sends it to `peerID`. -/
def Node.sendReply (n : Node) (peerID : String) : Node × (String × Message) :=
  let r := n.Clock.Increment
  ({ n with Clock := r.1 },
   (peerID, { type := "REPLY", timestamp := r.2, nodeID := n.ID }))

/-- The clock update `n.Clock.Witness(msg.Timestamp)` performed at the top
of both `handleMessage` and `handleRequest`. -/
def Node.witnessMsg (n : Node) (msg : Message) : Node :=
  { n with Clock := (n.Clock.Witness msg.timestamp).1 }

/-- Embeds the `shouldReply` condition computed inside `handleRequest`:
`n.State == Released || (n.State == Wanted && (msg.Timestamp < n.RequestTime ||
(msg.Timestamp == n.RequestTime && msg.NodeID < n.ID)))`. -/
def Node.shouldReplyB (n : Node) (msg : Message) : Bool :=
  decide (n.State = NodeState.Released) ||
    (decide (n.State = NodeState.Wanted) &&
      (decide (msg.timestamp < n.RequestTime) ||
        (decide (msg.timestamp = n.RequestTime) && decide (msg.nodeID < n.ID))))

/-- The body of `handleRequest` after its own `Clock.Witness` call:
either send a REPLY now or append the requester to `DeferredReplies`. -/
def Node.handleRequestCore (n : Node) (msg : Message) : StepResult :=
  if n.shouldReplyB msg then
    let r := n.sendReply msg.nodeID
    { node := r.1, sent := [r.2], granted := false }
  else
    { node := { n with DeferredReplies := n.DeferredReplies ++ [msg.nodeID] }
      sent := []
      granted := false }

/-- Embeds `handleRequest`: witnesses the message timestamp (again — the
caller `handleMessage` already did), then decides. -/
def Node.handleRequest (n : Node) (msg : Message) : StepResult :=
  (n.witnessMsg msg).handleRequestCore msg

/-- Embeds `_enterCS` (internal entry, mutex assumed held): only when the
state is `Wanted` it moves to `Held` and raises the grant signal. -/
def Node.enterCSInner (n : Node) : StepResult :=
  if n.State = NodeState.Wanted then
    { node := { n with State := NodeState.Held }, sent := [], granted := true }
  else
    { node := n, sent := [], granted := false }

/-- Embeds `handleReply`: only while `Wanted`, remove the sender from
`RepliesNeeded` and enter the critical section when none remain. -/
def Node.handleReply (n : Node) (msg : Message) : StepResult :=
  if n.State = NodeState.Wanted then
    let n1 := { n with
      RepliesNeeded := n.RepliesNeeded.filter (fun p => decide (p ≠ msg.nodeID)) }
    if n1.RepliesNeeded.length = 0 then
      n1.enterCSInner
    else
      { node := n1, sent := [], granted := false }
  else
    { node := n, sent := [], granted := false }

/-- Embeds `handleMessage`: witness the timestamp, then dispatch by type.
For a REQUEST this hands over to `handleRequest`, which witnesses again. -/
def Node.handleMessage (n0 : Node) (msg : Message) : StepResult :=
  let n := n0.witnessMsg msg
  if msg.type = "REQUEST" then n.handleRequest msg
  else if msg.type = "REPLY" then n.handleReply msg
  else { node := n, sent := [], granted := false }

/-- Follows the spec's words, for comparison with `Node.handleMessage`:
"On receiving ANY message `m`, first do `LC.witness(m.ts)` exactly once,
then dispatch by type" — so the REQUEST branch goes straight to the
decision body without witnessing a second time. -/
def Node.handleMessageOnceSpec (n0 : Node) (msg : Message) : StepResult :=
  let n := n0.witnessMsg msg
  if msg.type = "REQUEST" then n.handleRequestCore msg
  else if msg.type = "REPLY" then n.handleReply msg
  else { node := n, sent := [], granted := false }

/-- The reply-draining loop of `ReleaseCS`: send one REPLY per listed
peer, in order, threading the clock through. -/
def Node.sendReplies : Node → List String → Node × List (String × Message)
  | n, [] => (n, [])
  | n, p :: ps =>
    let r := n.sendReply p
    let rest := Node.sendReplies r.1 ps
    (rest.1, r.2 :: rest.2)

/-- Embeds `ReleaseCS`: set state to `Released`, send a deferred REPLY to
each entry of `DeferredReplies` in insertion order, then clear the list. -/
def Node.ReleaseCS (n0 : Node) : Node × List (String × Message) :=
  let n := { n0 with State := NodeState.Released }
  let r := Node.sendReplies n n.DeferredReplies
  ({ r.1 with DeferredReplies := [] }, r.2)

/-- Embeds `Lock` from the coordinator's `main.go` (`time.Time` as `Int`). -/
structure Lock where
  ID : String
  Resource : String
  ClientID : String
  ExpiresAt : Int
  CreatedAt : Int
deriving DecidableEq, Repr

/-- Embeds `LockResponse` (omitted JSON fields carry their zero values). -/
structure LockResponse where
  Success : Bool
  LockID : String
  Message : String
  ExpiresAt : Int
deriving DecidableEq, Repr

/-- The coordinator's `locks map[string]*Lock` as an association list
keyed by resource (first binding wins, as a map has unique keys). -/
abbrev LockTable := List (String × Lock)

/-- Map lookup `lc.locks[resource]`. -/
def lookupLock (t : LockTable) (r : String) : Option Lock :=
  t.lookup r

/-- Map removal `delete(lc.locks, resource)`. -/
def deleteLock (t : LockTable) (r : String) : LockTable :=
  t.filter (fun p => decide (p.1 ≠ r))

/-- Map write `lc.locks[resource] = lock`. -/
def insertLock (t : LockTable) (r : String) (l : Lock) : LockTable :=
  (r, l) :: deleteLock t r

/-- Embeds `AcquireLock(resource, clientID, ttl)`. `now` stands for the
`time.Now()` instant of the call and `insertOk` for the outcome of the
`collection.InsertOne` durable write (the error text drops the wrapped
driver detail). The lock id embeds `fmt.Sprintf("%s_%s_%d", ...)` with
`now` in place of the nanosecond reading. -/
def AcquireLock (locks : LockTable) (resource clientID : String) (ttl now : Int)
    (insertOk : Bool) : LockTable × Except String LockResponse :=
  let proceed : LockTable → LockTable × Except String LockResponse := fun t =>
    let lockID := resource ++ "_" ++ clientID ++ "_" ++ toString now
    let lock : Lock :=
      { ID := lockID, Resource := resource, ClientID := clientID
        ExpiresAt := now + ttl, CreatedAt := now }
    let t1 := insertLock t resource lock
    if insertOk then
      (t1, Except.ok
        { Success := true, LockID := lockID
          Message := "Lock acquired successfully", ExpiresAt := now + ttl })
    else
      (deleteLock t1 resource, Except.error "failed to save lock to database")
  match lookupLock locks resource with
  | some existing =>
    if now < existing.ExpiresAt then
      (locks, Except.ok
        { Success := false, LockID := ""
          Message := "Resource " ++ resource ++ " is already locked by client "
            ++ existing.ClientID
          ExpiresAt := 0 })
    else
      proceed (deleteLock locks resource)
  | none => proceed locks

/-- Embeds `ReleaseLock(resource, clientID)`; the durable delete's error
is only logged in the source, so it does not appear here. -/
def ReleaseLock (locks : LockTable) (resource clientID : String) :
    LockTable × Except String LockResponse :=
  match lookupLock locks resource with
  | none =>
    (locks, Except.ok
      { Success := false, LockID := ""
        Message := "No lock found for this resource", ExpiresAt := 0 })
  | some lock =>
    if lock.ClientID ≠ clientID then
      (locks, Except.ok
        { Success := false, LockID := ""
          Message := "Lock belongs to a different client", ExpiresAt := 0 })
    else
      (deleteLock locks resource, Except.ok
        { Success := true, LockID := ""
          Message := "Lock released successfully", ExpiresAt := 0 })

/-- Embeds one pass of the loop body inside `cleanupExpiredLocks`: a lease
is deleted exactly when `now.After(lock.ExpiresAt)`, i.e. kept exactly
when `¬ (lock.ExpiresAt < now)`. -/
def cleanupPass (locks : LockTable) (now : Int) : LockTable :=
  locks.filter (fun p => !(decide (p.2.ExpiresAt < now)))

/-- Embeds `Asiento` from the centralized reservation server. -/
structure Asiento where
  Numero : Int
  Disponible : Bool
  Cliente : String
  ServerID : String
  UpdatedAt : Int
deriving DecidableEq, Repr

/-- Embeds the in-critical-section body of `ReservarAsiento` acting on a
seat that exists (the lock acquisition and `!exists` guard happen before
this point). `now` is the `time.Now()` reading, `persistOk` the outcome
of `collection.ReplaceOne`. Returns the final in-memory seat, the success
flag and the message. On persistence failure the source reverts only
`Disponible` and `Cliente` — not `UpdatedAt`. -/
def ReservarAsientoCS (asiento : Asiento) (cliente : String) (now : Int)
    (persistOk : Bool) : Asiento × Bool × String :=
  if !asiento.Disponible then
    (asiento, false, "Asiento ya está ocupado")
  else
    let a1 := { asiento with Disponible := false, Cliente := cliente, UpdatedAt := now }
    if persistOk then
      (a1, true, "Asiento reservado exitosamente")
    else
      let a2 := { a1 with Disponible := true, Cliente := "" }
      (a2, false, "Error updating database")

/-- Embeds the in-critical-section body of `LiberarAsiento` acting on a
seat that exists. On persistence failure the source reverts only
`Disponible` — `Cliente` stays cleared and `UpdatedAt` stays updated. -/
def LiberarAsientoCS (asiento : Asiento) (now : Int)
    (persistOk : Bool) : Asiento × Bool × String :=
  if asiento.Disponible then
    (asiento, false, "Asiento ya está disponible")
  else
    let a1 := { asiento with Disponible := true, Cliente := "", UpdatedAt := now }
    if persistOk then
      (a1, true, "Asiento liberado exitosamente")
    else
      let a2 := { a1 with Disponible := false }
      (a2, false, "Error updating database")

/-! Concrete instances used by witness and counterexample theorems. -/

/-- A node currently holding the critical section (`State = Held`). -/
def nHeldEx : Node :=
  { ID := "b", Peers := ["a"], Clock := { time := 10 }, State := NodeState.Held
    RequestTime := 5, RepliesNeeded := [], DeferredReplies := [] }

/-- A node with no interest in the critical section (`State = Released`). -/
def nReleasedEx : Node :=
  { ID := "b", Peers := ["a"], Clock := { time := 10 }, State := NodeState.Released
    RequestTime := 0, RepliesNeeded := [], DeferredReplies := [] }

/-- A REQUEST from peer `a` with timestamp 1. -/
def msgReqEx : Message := { type := "REQUEST", timestamp := 1, nodeID := "a" }

/-- A REPLY from peer `a` with timestamp 2. -/
def msgRepEx : Message := { type := "REPLY", timestamp := 2, nodeID := "a" }

/-- A freshly released node with clock 0, used to trace `handleMessage`. -/
def nodeC2 : Node :=
  { ID := "b", Peers := ["a"], Clock := { time := 0 }, State := NodeState.Released
    RequestTime := 0, RepliesNeeded := [], DeferredReplies := [] }

/-- A REQUEST from peer `a` with timestamp 0. -/
def msgC2 : Message := { type := "REQUEST", timestamp := 0, nodeID := "a" }

/-- A seat currently reserved by client `Juan`. -/
def seatOccupied : Asiento :=
  { Numero := 7, Disponible := false, Cliente := "Juan", ServerID := "server-1"
    UpdatedAt := 10 }

/-- A seat currently free. -/
def seatFree : Asiento :=
  { Numero := 7, Disponible := true, Cliente := "", ServerID := "server-1"
    UpdatedAt := 10 }

/-- A lease on `seat_1` held by client `A`. -/
def lockByA : Lock :=
  { ID := "seat_1_A_0", Resource := "seat_1", ClientID := "A", ExpiresAt := 100
    CreatedAt := 0 }

/-- A one-entry lease table holding `lockByA`. -/
def locksByA : LockTable := [("seat_1", lockByA)]

/-- A lease whose `ExpiresAt` equals the sweep instant used below. -/
def lockAtSweep : Lock :=
  { ID := "seat_9_A_0", Resource := "seat_9", ClientID := "A", ExpiresAt := 5
    CreatedAt := 0 }

/-! Helper lemmas. -/

/-- Looking a key up after deleting it from the table yields nothing. -/
theorem lookupLock_deleteLock (t : LockTable) (r : String) :
    lookupLock (deleteLock t r) r = none := by
  induction t with
  | nil => rfl
  | cons p t ih =>
    obtain ⟨k, v⟩ := p
    by_cases hk : k = r
    · simpa [deleteLock, List.filter_cons, hk] using ih
    · have h1 : deleteLock ((k, v) :: t) r = (k, v) :: deleteLock t r := by
        simp [deleteLock, List.filter_cons, hk]
      have h2 : (r == k) = false := by
        simp only [beq_eq_false_iff_ne, ne_eq]
        exact fun e => hk e.symm
      show (deleteLock ((k, v) :: t) r).lookup r = none
      rw [h1, List.lookup_cons, h2]
      exact ih

/-- `Increment` and `Witness` both return a value strictly above the old
clock and leave the clock at the returned value. -/
theorem runClockOp_mutating (c : LamportClock) (op : ClockOp) (h : op ≠ ClockOp.getTime) :
    c.time < (runClockOp c op).2 ∧ (runClockOp c op).1.time = (runClockOp c op).2 := by
  cases op with
  | increment =>
    refine ⟨?_, rfl⟩
    show c.time < c.time + 1
    omega
  | getTime => exact absurd rfl h
  | witness r =>
    refine ⟨?_, rfl⟩
    show c.time < (if r > c.time then r else c.time) + 1
    split <;> omega

/-- Across any sequence of mutating clock operations the returned values
are pairwise strictly increasing, and all exceed the starting clock. -/
theorem runClock_sorted (ops : List ClockOp) :
    ∀ c : LamportClock, (∀ op ∈ ops, op ≠ ClockOp.getTime) →
      (runClock c ops).Pairwise (· < ·) ∧ ∀ v ∈ runClock c ops, c.time < v := by
  induction ops with
  | nil => intro c _; simp [runClock]
  | cons op ops ih =>
    intro c h
    obtain ⟨hlt, heq⟩ := runClockOp_mutating c op (h op (List.mem_cons_self op ops))
    obtain ⟨hp, hv⟩ := ih (runClockOp c op).1 (fun o ho => h o (List.mem_cons_of_mem _ ho))
    have hrun : runClock c (op :: ops)
        = (runClockOp c op).2 :: runClock (runClockOp c op).1 ops := rfl
    rw [hrun]
    refine ⟨List.Pairwise.cons ?_ hp, ?_⟩
    · intro v hvmem
      have := hv v hvmem
      omega
    · intro v hvmem
      rcases List.mem_cons.mp hvmem with h' | h'
      · omega
      · have := hv v h'
        omega

/-- The reply-draining loop sends to exactly the listed peers, in order. -/
theorem sendReplies_map_fst (ps : List String) :
    ∀ n : Node, ((Node.sendReplies n ps).2.map Prod.fst) = ps := by
  induction ps with
  | nil => intro n; rfl
  | cons p ps ih =>
    intro n
    simp [Node.sendReplies, Node.sendReply, ih]

/-- The reply-draining loop never changes the node's state field. -/
theorem sendReplies_State (ps : List String) :
    ∀ n : Node, (Node.sendReplies n ps).1.State = n.State := by
  induction ps with
  | nil => intro n; rfl
  | cons p ps ih =>
    intro n
    simpa [Node.sendReplies, Node.sendReply] using ih _

/-- Witnessing a message timestamp does not change the reply decision:
`shouldReplyB` reads only `State`, `RequestTime` and `ID`. -/
theorem shouldReplyB_witnessMsg (n : Node) (m msg : Message) :
    (n.witnessMsg m).shouldReplyB msg = n.shouldReplyB msg := rfl

/-- Witnessing a message timestamp leaves `DeferredReplies` unchanged. -/
theorem witnessMsg_DeferredReplies (n : Node) (m : Message) :
    (n.witnessMsg m).DeferredReplies = n.DeferredReplies := rfl

/-- The message built by `sendReply` is addressed to the given peer. -/
theorem sendReply_snd (n : Node) (p : String) :
    (n.sendReply p).2
      = (p, { type := "REPLY", timestamp := n.Clock.Increment.2, nodeID := n.ID }) := rfl

/-- `sendReply` leaves `DeferredReplies` unchanged. -/
theorem sendReply_fst_DeferredReplies (n : Node) (p : String) :
    (n.sendReply p).1.DeferredReplies = n.DeferredReplies := rfl

/-! Claim theorems. -/

/-- Claim C1 (amended): on a REQUEST, `handleRequest` sends a REPLY
immediately if and only if `state = Released ∨ (state = Wanted ∧
(T_req_j, j) < (T_req, id))` lexicographically; in every other case —
including `state = Held` with a higher-priority requester — it appends
`j` to `DeferredReplies` instead. (The original claim also let a `Held`
node reply immediately to a higher-priority request; the code never
replies while `Held`.) -/
theorem C1_amended (n : Node) (msg : Message) :
    (n.shouldReplyB msg = true ↔
      (n.State = NodeState.Released ∨
        (n.State = NodeState.Wanted ∧
          (msg.timestamp < n.RequestTime ∨
            (msg.timestamp = n.RequestTime ∧ msg.nodeID < n.ID))))) ∧
    (n.shouldReplyB msg = true →
      (n.handleRequest msg).sent.map Prod.fst = [msg.nodeID] ∧
      (n.handleRequest msg).node.DeferredReplies = n.DeferredReplies) ∧
    (n.shouldReplyB msg = false →
      (n.handleRequest msg).sent = [] ∧
      (n.handleRequest msg).node.DeferredReplies = n.DeferredReplies ++ [msg.nodeID]) := by
  refine ⟨?_, ?_, ?_⟩
  · simp [Node.shouldReplyB, Bool.or_eq_true, Bool.and_eq_true, decide_eq_true_eq]
  · intro h
    have hw : (n.witnessMsg msg).shouldReplyB msg = true := h
    constructor <;>
      simp [Node.handleRequest, Node.handleRequestCore, hw, sendReply_snd,
        sendReply_fst_DeferredReplies, witnessMsg_DeferredReplies]
  · intro h
    have hw : (n.witnessMsg msg).shouldReplyB msg = false := h
    constructor <;>
      simp [Node.handleRequest, Node.handleRequestCore, hw, sendReply_snd,
        sendReply_fst_DeferredReplies, witnessMsg_DeferredReplies]

/-- Claim C1 witness: a `Released` node replies immediately to a REQUEST
and defers nothing, by `C1_amended` at a concrete node and message. -/
theorem C1_witness :
    nReleasedEx.shouldReplyB msgReqEx = true ∧
    (nReleasedEx.handleRequest msgReqEx).sent.map Prod.fst = [msgReqEx.nodeID] ∧
    (nReleasedEx.handleRequest msgReqEx).node.DeferredReplies
      = nReleasedEx.DeferredReplies :=
  ⟨by decide, (C1_amended nReleasedEx msgReqEx).2.1 (by decide)⟩

/-- Claim C1 counterexample: a node in state `Held` with request pair
`(5, "b")` receives a REQUEST with strictly smaller pair `(1, "a")`, so
the claim's `reply_now` condition holds, yet the code sends no REPLY and
defers the requester. -/
theorem C1_counterexample :
    ((nHeldEx.State = NodeState.Wanted ∨ nHeldEx.State = NodeState.Held) ∧
      (msgReqEx.timestamp < nHeldEx.RequestTime ∨
        (msgReqEx.timestamp = nHeldEx.RequestTime ∧ msgReqEx.nodeID < nHeldEx.ID))) ∧
    (nHeldEx.handleRequest msgReqEx).sent = [] ∧
    (nHeldEx.handleRequest msgReqEx).node.DeferredReplies = ["a"] := by
  refine ⟨⟨Or.inr rfl, Or.inl (by decide)⟩, by decide, by decide⟩

/-- Claim C2 (amended): `handleMessage` witnesses the message timestamp
once and then dispatches by type; for a REPLY that is the only witness
call, but for a REQUEST the dispatched `handleRequest` witnesses the same
timestamp a second time, so a received REQUEST is witnessed twice, not
exactly once. -/
theorem C2_amended (n : Node) (msg : Message) :
    (msg.type = "REQUEST" →
      n.handleMessage msg
        = Node.handleRequestCore ((n.witnessMsg msg).witnessMsg msg) msg) ∧
    (msg.type = "REPLY" →
      n.handleMessage msg = Node.handleReply (n.witnessMsg msg) msg) := by
  constructor
  · intro h
    simp [Node.handleMessage, Node.handleRequest, h]
  · intro h
    simp [Node.handleMessage, h]

/-- Claim C2 witness: `C2_amended` applied to a concrete node receiving a
concrete REQUEST, exhibiting the double witness. -/
theorem C2_witness :
    msgC2.type = "REQUEST" ∧
    nodeC2.handleMessage msgC2
      = Node.handleRequestCore ((nodeC2.witnessMsg msgC2).witnessMsg msgC2) msgC2 :=
  ⟨rfl, (C2_amended nodeC2 msgC2).1 rfl⟩

/-- Claim C2 counterexample: a node with clock 0 receiving a REQUEST with
timestamp 0 ends with clock 3 under the code (witness, witness again,
increment for the REPLY), while the witness-exactly-once reading of the
spec ends with clock 2; the two disagree. -/
theorem C2_counterexample :
    (nodeC2.handleMessage msgC2).node.Clock.time = 3 ∧
    (nodeC2.handleMessageOnceSpec msgC2).node.Clock.time = 2 ∧
    nodeC2.handleMessage msgC2 ≠ nodeC2.handleMessageOnceSpec msgC2 := by
  refine ⟨by decide, by decide, by decide⟩

/-- Claim C3 (code bug): on persistence failure the revert is incomplete.
`LiberarAsiento` on a seat held by `Juan` returns a store error but leaves
the in-memory seat with `Cliente = ""` (the holder's name is lost) and the
new `UpdatedAt`; `ReservarAsiento` likewise leaves the new `UpdatedAt`.
In both cases the in-memory seat differs from its pre-operation value,
contrary to the revert-everything discipline the claim (and the source's
own revert comment) state. -/
theorem C3_revert_incomplete :
    ((LiberarAsientoCS seatOccupied 20 false).2.1 = false ∧
      (LiberarAsientoCS seatOccupied 20 false).1 ≠ seatOccupied ∧
      (LiberarAsientoCS seatOccupied 20 false).1.Cliente = "" ∧
      seatOccupied.Cliente = "Juan" ∧
      (LiberarAsientoCS seatOccupied 20 false).1.UpdatedAt = 20 ∧
      seatOccupied.UpdatedAt = 10) ∧
    ((ReservarAsientoCS seatFree "Ana" 20 false).2.1 = false ∧
      (ReservarAsientoCS seatFree "Ana" 20 false).1 ≠ seatFree ∧
      (ReservarAsientoCS seatFree "Ana" 20 false).1.UpdatedAt = 20 ∧
      seatFree.UpdatedAt = 10) := by
  decide

/-- Claim C4: `ReleaseLock` by a non-owner returns a not-released response
with the not-owner message and leaves the table untouched; release on a
resource with no lease returns not-released with the no-lock message and
also changes nothing. Holding for every table, this covers every sequence
of coordinator operations. -/
theorem C4_release_ownership (locks : LockTable) (resource clientID : String) :
    (lookupLock locks resource = none →
      ReleaseLock locks resource clientID
        = (locks, Except.ok
            { Success := false, LockID := ""
              Message := "No lock found for this resource", ExpiresAt := 0 })) ∧
    (∀ L : Lock, lookupLock locks resource = some L → L.ClientID ≠ clientID →
      ReleaseLock locks resource clientID
        = (locks, Except.ok
            { Success := false, LockID := ""
              Message := "Lock belongs to a different client", ExpiresAt := 0 })) := by
  constructor
  · intro h
    simp [ReleaseLock, h]
  · intro L hL hne
    simp [ReleaseLock, hL, hne]

/-- Claim C4 witness: client `B` fails to release client `A`'s lease on
`seat_1` and the table is unchanged, by `C4_release_ownership`. -/
theorem C4_witness :
    lockByA.ClientID ≠ "B" ∧
    ReleaseLock locksByA "seat_1" "B"
      = (locksByA, Except.ok
          { Success := false, LockID := ""
            Message := "Lock belongs to a different client", ExpiresAt := 0 }) :=
  ⟨by decide, (C4_release_ownership locksByA "seat_1" "B").2 lockByA rfl (by decide)⟩

/-- Claim C5: when `AcquireLock` reaches the durable write (no unexpired
lease blocks it) and the write fails, the in-memory install is rolled
back — the table no longer maps the resource to any lease — and the call
surfaces the store error instead of a granted response. -/
theorem C5_acquire_rollback (locks : LockTable) (resource clientID : String) (ttl now : Int)
    (h : ∀ L : Lock, lookupLock locks resource = some L → L.ExpiresAt ≤ now) :
    lookupLock (AcquireLock locks resource clientID ttl now false).1 resource = none ∧
    (AcquireLock locks resource clientID ttl now false).2
      = Except.error "failed to save lock to database" := by
  cases hl : lookupLock locks resource with
  | none =>
    constructor
    · simpa [AcquireLock, hl, insertLock] using
        lookupLock_deleteLock (insertLock locks resource _) resource
    · simp [AcquireLock, hl]
  | some L =>
    have hnl : ¬ (now < L.ExpiresAt) := not_lt.mpr (h L hl)
    constructor
    · simpa [AcquireLock, hl, hnl, insertLock] using
        lookupLock_deleteLock (insertLock (deleteLock locks resource) resource _) resource
    · simp [AcquireLock, hl, hnl]

/-- Claim C5 witness: acquiring on an empty table with a failing durable
write leaves no lease installed and returns the error, by
`C5_acquire_rollback`. -/
theorem C5_witness :
    lookupLock (AcquireLock [] "seat_1" "A" 30 100 false).1 "seat_1" = none ∧
    (AcquireLock [] "seat_1" "A" 30 100 false).2
      = Except.error "failed to save lock to database" :=
  C5_acquire_rollback [] "seat_1" "A" 30 100 (fun _ hL => Option.noConfusion hL)

/-- Claim C6 (amended): a sweep pass at instant `now` removes exactly the
leases with `expires_at` strictly below `now`: every surviving lease has
`now ≤ expires_at`, and every lease with `now ≤ expires_at` survives.
(The original claim removed leases with `expires_at ≤ now`; the code uses
`now.After(expires_at)`, which is strict, so a lease expiring exactly at
`now` survives the pass.) -/
theorem C6_amended (locks : LockTable) (now : Int) :
    (∀ p ∈ cleanupPass locks now, now ≤ p.2.ExpiresAt) ∧
    (∀ p ∈ locks, now ≤ p.2.ExpiresAt → p ∈ cleanupPass locks now) := by
  constructor
  · intro p hp
    have h2 := (List.mem_filter.mp hp).2
    simp only [Bool.not_eq_true', decide_eq_false_iff_not, not_lt] at h2
    exact h2
  · intro p hp h
    refine List.mem_filter.mpr ⟨hp, ?_⟩
    simp only [Bool.not_eq_true', decide_eq_false_iff_not, not_lt]
    exact h

/-- Claim C6 witness: a lease expiring at 5 survives a sweep at instant 3,
by `C6_amended`. -/
theorem C6_witness :
    ("seat_9", lockAtSweep) ∈ cleanupPass [("seat_9", lockAtSweep)] 3 :=
  (C6_amended [("seat_9", lockAtSweep)] 3).2 ("seat_9", lockAtSweep) (by decide) (by decide)

/-- Claim C6 counterexample: a lease with `expires_at = now = 5` satisfies
`expires_at ≤ now` yet survives the sweep pass, so the claim's
`expires_at ≤ now` removal bound is wrong. -/
theorem C6_counterexample :
    lockAtSweep.ExpiresAt ≤ 5 ∧
    ("seat_9", lockAtSweep) ∈ cleanupPass [("seat_9", lockAtSweep)] 5 := by
  decide

/-- Claim C7: `ReleaseCS` sets the state to `Released`, sends exactly one
REPLY to each entry of `DeferredReplies` in insertion order (the
recipients of the sent messages are exactly the deferred list), and
clears the list — so every deferred REQUEST has received exactly one
REPLY when the node is back in `Released`. -/
theorem C7_release_drains (n : Node) :
    (n.ReleaseCS).1.State = NodeState.Released ∧
    (n.ReleaseCS).1.DeferredReplies = [] ∧
    (n.ReleaseCS).2.map Prod.fst = n.DeferredReplies := by
  refine ⟨?_, rfl, ?_⟩
  · show (Node.sendReplies { n with State := NodeState.Released }
        n.DeferredReplies).1.State = NodeState.Released
    exact sendReplies_State _ _
  · exact sendReplies_map_fst _ _

/-- Claim C8 (amended): self-exclusion of the peer set is enforced by the
caller, not the constructor: the peer-filtering loop in `main` never lets
the node's own id through, and `NewNode` stores the list it is given
verbatim. -/
theorem C8_amended (serverID : String) (rawPeers : List String) :
    serverID ∉ mainFilterPeers serverID rawPeers ∧
    (NewNode serverID (mainFilterPeers serverID rawPeers)).Peers
      = mainFilterPeers serverID rawPeers := by
  constructor
  · intro h
    have h2 := (List.mem_filter.mp h).2
    simp at h2
  · rfl

/-- Claim C8 witness: `C8_amended` at `serverID = "server1"` with raw peer
list `["server1", "server2"]`. -/
theorem C8_witness :
    "server1" ∉ mainFilterPeers "server1" ["server1", "server2"] ∧
    (NewNode "server1" (mainFilterPeers "server1" ["server1", "server2"])).Peers
      = mainFilterPeers "server1" ["server1", "server2"] :=
  C8_amended "server1" ["server1", "server2"]

/-- Claim C8 counterexample: the constructor itself enforces nothing —
`NewNode "server1" ["server1"]` yields a node whose `Peers` contains its
own id. -/
theorem C8_counterexample :
    (NewNode "server1" ["server1"]).ID = "server1" ∧
    "server1" ∈ (NewNode "server1" ["server1"]).Peers := by
  decide

/-- Claim C9 (amended): `Witness(t_recv)` sets the clock to
`max(t, t_recv) + 1` and returns the new value, and the values returned by
any sequence of the mutating operations (`Increment`, `Witness`) are
strictly increasing. (The original claim covered all clock operations,
but `GetTime` returns the clock unchanged, so two consecutive `GetTime`
calls return equal values.) -/
theorem C9_amended :
    (∀ (c : LamportClock) (r : Int),
      (c.Witness r).2 = max c.time r + 1 ∧ (c.Witness r).1.time = (c.Witness r).2) ∧
    (∀ (c : LamportClock) (ops : List ClockOp),
      (∀ op ∈ ops, op ≠ ClockOp.getTime) → (runClock c ops).Pairwise (· < ·)) := by
  constructor
  · intro c r
    refine ⟨?_, rfl⟩
    show (if r > c.time then r else c.time) + 1 = max c.time r + 1
    rcases lt_or_ge c.time r with h | h
    · rw [if_pos h, max_eq_right h.le]
    · rw [if_neg (not_lt.mpr h), max_eq_left h]
  · intro c ops h
    exact (runClock_sorted ops c h).1

/-- Claim C9 witness: `C9_amended` at clock 3 witnessing 5, and at a
concrete mutating-operation sequence from clock 0. -/
theorem C9_witness :
    ((LamportClock.mk 3).Witness 5).2 = max 3 5 + 1 ∧
    (runClock { time := 0 } [ClockOp.increment, ClockOp.witness 5]).Pairwise (· < ·) :=
  ⟨(C9_amended.1 { time := 3 } 5).1, C9_amended.2 { time := 0 } _ (by decide)⟩

/-- Claim C9 counterexample: two consecutive `GetTime` calls on a clock at
5 return `[5, 5]`, which is not strictly increasing, so the claim is false
when, as stated, all of the clock's operations are counted. -/
theorem C9_counterexample :
    runClock { time := 5 } [ClockOp.getTime, ClockOp.getTime] = [5, 5] ∧
    ¬ (runClock { time := 5 } [ClockOp.getTime, ClockOp.getTime]).Pairwise (· < ·) := by
  refine ⟨by decide, by decide⟩

/-- Claim C10: `_enterCS` moves to `Held` and raises the grant signal only
from state `Wanted`; in any other state it is a no-op with no signal, and
`handleReply` likewise leaves the node (state, `RepliesNeeded`, deferred
list) unchanged and raises no signal — so within one requestCS cycle the
grant signal is raised at most once. -/
theorem C10_grant_once (n : Node) (msg : Message) :
    (n.State = NodeState.Wanted →
      n.enterCSInner
        = { node := { n with State := NodeState.Held }, sent := [], granted := true }) ∧
    (n.State ≠ NodeState.Wanted →
      n.enterCSInner = { node := n, sent := [], granted := false } ∧
      n.handleReply msg = { node := n, sent := [], granted := false }) := by
  constructor
  · intro h
    simp [Node.enterCSInner, h]
  · intro h
    exact ⟨by simp [Node.enterCSInner, h], by simp [Node.handleReply, h]⟩

/-- Claim C10 witness: a node already in `Held` ignores a further REPLY
and a further `_enterCS`, raising no signal, by `C10_grant_once`. -/
theorem C10_witness :
    nHeldEx.State ≠ NodeState.Wanted ∧
    nHeldEx.enterCSInner = { node := nHeldEx, sent := [], granted := false } ∧
    nHeldEx.handleReply msgRepEx = { node := nHeldEx, sent := [], granted := false } :=
  ⟨by decide, ((C10_grant_once nHeldEx msgRepEx).2 (by decide)).1,
    ((C10_grant_once nHeldEx msgRepEx).2 (by decide)).2⟩

end Distribuidos
